import Mathlib

/-!
# SubEarthCharacter

A shallow embedding of `SubEarth/Source/SubEarth/SubEarthCharacter.cpp`: the
first-person character of the SubEarth project. The class owns four member
variables of interest (two rotation rates, two hand flags); everything else it
touches belongs to the game engine.

Conventions of the embedding.

* The engine is not code of this file. Whatever the class asks of it (logging,
  movement and rotation input, the world clock, component wiring) is a field of
  `Host`, and the engine-owned state is one value of an arbitrary type `W`
  carried in the character. Engine calls change `W` and nothing else: the
  engine base classes have no access to the members declared by this class.
* `float` values are modelled by rational numbers (`45.f` is exactly `45`);
  infinities and NaN are left out. The one place where the file computes with
  floats, the product handed to the rotation input, goes through `Host.fmul`,
  so that no rounding behaviour is fixed here.
* `int hand` is an unbounded integer; the cast `(Hand_e)hand` keeps the value,
  and a `switch` is the chain of comparisons with its case labels, in order.
-/

namespace SubEarth

/-- Enumerators of `Hand_e`. The enumeration is declared in
`SubEarthCharacter.h`, which is not among the sources, so the values of its
three enumerators are parameters of the model. -/
structure Hand_e where
  LEFT_HAND : Int
  RIGHT_HAND : Int
  BOTH_HANDS : Int

/-- The three enumerators are pairwise different. They are the case labels of
one `switch` statement (twice), which C++ rejects when two labels coincide. -/
def Hand_e.Distinct (e : Hand_e) : Prop :=
  e.LEFT_HAND ≠ e.RIGHT_HAND ∧ e.LEFT_HAND ≠ e.BOTH_HANDS ∧ e.RIGHT_HAND ≠ e.BOTH_HANDS

instance (e : Hand_e) : Decidable e.Distinct :=
  inferInstanceAs (Decidable
    (e.LEFT_HAND ≠ e.RIGHT_HAND ∧ e.LEFT_HAND ≠ e.BOTH_HANDS ∧ e.RIGHT_HAND ≠ e.BOTH_HANDS))

/-- Verbosity levels used with `UE_LOG` in this file. -/
inductive ELogVerbosity where
  | Log
  | Warning
deriving DecidableEq

/-- The services of the engine that the character calls. `W` is the state the
engine owns, `V` the engine's vector type. -/
structure Host (W V : Type) where
  /-- Macro `UE_LOG(LogTemp, verbosity, text)`. -/
  UE_LOG : ELogVerbosity → String → W → W
  /-- The `float` product. -/
  fmul : ℚ → ℚ → ℚ
  /-- Call `GetWorld()->GetDeltaSeconds()`. -/
  GetDeltaSeconds : W → ℚ
  /-- Call `GetActorForwardVector()`. -/
  GetActorForwardVector : W → V
  /-- Call `GetActorRightVector()`. -/
  GetActorRightVector : W → V
  /-- Call `AddMovementInput(direction, scale)`. -/
  AddMovementInput : V → ℚ → W → W
  /-- Call `AddControllerYawInput(value)`. -/
  AddControllerYawInput : ℚ → W → W
  /-- Call `AddControllerPitchInput(value)`. -/
  AddControllerPitchInput : ℚ → W → W
  /-- The component wiring of the constructor: capsule size, camera, first
  person mesh and the two motion controllers. -/
  SetupComponents : W → W

/-- The member variables of `ASubEarthCharacter` together with the engine-owned
state. -/
structure ASubEarthCharacter (W : Type) where
  BaseTurnRate : ℚ
  BaseLookUpRate : ℚ
  isLeftHandEmpty : Bool
  isRightHandEmpty : Bool
  engine : W

/-- The constructor `ASubEarthCharacter::ASubEarthCharacter()`, run on the
engine state `w`. -/
def ASubEarthCharacter.ctor {W V : Type} (E : Host W V) (w : W) : ASubEarthCharacter W :=
  { BaseTurnRate := 45
    BaseLookUpRate := 45
    engine := E.SetupComponents w
    isLeftHandEmpty := true
    isRightHandEmpty := true }

/-- The method `ASubEarthCharacter::IsHandEmpty(int hand)`: the returned value
and the state after the call. -/
def ASubEarthCharacter.IsHandEmpty {W V : Type} (E : Host W V) (e : Hand_e) (hand : Int)
    (s : ASubEarthCharacter W) : Bool × ASubEarthCharacter W :=
  let is_empty := false
  if hand = e.LEFT_HAND then (s.isLeftHandEmpty, s)
  else if hand = e.RIGHT_HAND then (s.isRightHandEmpty, s)
  else if hand = e.BOTH_HANDS then
    (if s.isLeftHandEmpty && s.isRightHandEmpty then true else is_empty, s)
  else
    (is_empty,
      { s with engine :=
          E.UE_LOG .Warning ("Unrecognized hand enum " ++ toString hand) s.engine })

/-- The method `ASubEarthCharacter::MoveForward(float Value)`. -/
def ASubEarthCharacter.MoveForward {W V : Type} (E : Host W V) (Value : ℚ)
    (s : ASubEarthCharacter W) : ASubEarthCharacter W :=
  if Value ≠ 0 then
    { s with engine := E.AddMovementInput (E.GetActorForwardVector s.engine) Value s.engine }
  else s

/-- The method `ASubEarthCharacter::MoveRight(float Value)`. -/
def ASubEarthCharacter.MoveRight {W V : Type} (E : Host W V) (Value : ℚ)
    (s : ASubEarthCharacter W) : ASubEarthCharacter W :=
  if Value ≠ 0 then
    { s with engine := E.AddMovementInput (E.GetActorRightVector s.engine) Value s.engine }
  else s

/-- The method `ASubEarthCharacter::TurnAtRate(float Rate)`. -/
def ASubEarthCharacter.TurnAtRate {W V : Type} (E : Host W V) (Rate : ℚ)
    (s : ASubEarthCharacter W) : ASubEarthCharacter W :=
  { s with engine :=
      (E.AddControllerYawInput
        (E.fmul (E.fmul Rate s.BaseTurnRate) (E.GetDeltaSeconds s.engine)) s.engine) }

/-- The method `ASubEarthCharacter::LookUpAtRate(float Rate)`. -/
def ASubEarthCharacter.LookUpAtRate {W V : Type} (E : Host W V) (Rate : ℚ)
    (s : ASubEarthCharacter W) : ASubEarthCharacter W :=
  { s with engine :=
      (E.AddControllerPitchInput
        (E.fmul (E.fmul Rate s.BaseLookUpRate) (E.GetDeltaSeconds s.engine)) s.engine) }

/-- The method `ASubEarthCharacter::GrabDropObject(int hand)`. The case
`BOTH_HANDS` calls the method again, for the left and then for the right hand;
those calls land in one of the first two cases, which is the termination
argument. -/
def ASubEarthCharacter.GrabDropObject {W V : Type} (E : Host W V) (e : Hand_e) (hand : Int)
    (s : ASubEarthCharacter W) : ASubEarthCharacter W :=
  if _h1 : hand = e.LEFT_HAND then
    if s.isLeftHandEmpty then
      { s with isLeftHandEmpty := false
               engine := E.UE_LOG .Log "Left hand grab object" s.engine }
    else
      { s with isLeftHandEmpty := true
               engine := E.UE_LOG .Log "Left hand drop object" s.engine }
  else if _h2 : hand = e.RIGHT_HAND then
    if s.isRightHandEmpty then
      { s with isRightHandEmpty := false
               engine := E.UE_LOG .Log "Right hand grab object" s.engine }
    else
      { s with isRightHandEmpty := true
               engine := E.UE_LOG .Log "Right hand drop object" s.engine }
  else if _h3 : hand = e.BOTH_HANDS then
    ASubEarthCharacter.GrabDropObject E e e.RIGHT_HAND
      (ASubEarthCharacter.GrabDropObject E e e.LEFT_HAND s)
  else
    { s with engine :=
        E.UE_LOG .Warning ("Unrecognized hand enum " ++ toString hand) s.engine }
termination_by (if hand = e.LEFT_HAND then 0 else if hand = e.RIGHT_HAND then 0 else 1 : Nat)
decreasing_by
  · simp [_h1, _h2]
  · simp only [_h1, _h2, if_false]
    split <;> simp

/-- The input callback `ASubEarthCharacter::LeftHandGrabDropObj()`. -/
def ASubEarthCharacter.LeftHandGrabDropObj {W V : Type} (E : Host W V) (e : Hand_e)
    (s : ASubEarthCharacter W) : ASubEarthCharacter W :=
  ASubEarthCharacter.GrabDropObject E e e.LEFT_HAND s

/-- The input callback `ASubEarthCharacter::RightHandGrabDropObj()`. -/
def ASubEarthCharacter.RightHandGrabDropObj {W V : Type} (E : Host W V) (e : Hand_e)
    (s : ASubEarthCharacter W) : ASubEarthCharacter W :=
  ASubEarthCharacter.GrabDropObject E e e.RIGHT_HAND s

/-- A host that records every engine call, in order, as a line of text. It
stands in for the engine when the model is run on concrete inputs. -/
def recordingHost : Host (List String) String where
  UE_LOG := fun v msg w =>
    w ++ [(match v with
      | .Log => "Log: "
      | .Warning => "Warning: ") ++ msg]
  fmul := fun a b => a * b
  GetDeltaSeconds := fun _ => 1 / 60
  GetActorForwardVector := fun _ => "forward"
  GetActorRightVector := fun _ => "right"
  AddMovementInput := fun v x w => w ++ ["AddMovementInput " ++ v ++ " " ++ toString x]
  AddControllerYawInput := fun x w => w ++ ["AddControllerYawInput " ++ toString x]
  AddControllerPitchInput := fun x w => w ++ ["AddControllerPitchInput " ++ toString x]
  SetupComponents := fun w => w ++ ["SetupComponents"]

/-- The enumerator values `0, 1, 2`, those of an enumeration declared without
explicit values. -/
def defaultHands : Hand_e := { LEFT_HAND := 0, RIGHT_HAND := 1, BOTH_HANDS := 2 }

/-- A finite sequence of `GrabDropObject` calls, applied in order, one call per
element of `hands`. -/
def applyGrabDrops {W V : Type} (E : Host W V) (e : Hand_e) (hands : List Int)
    (s : ASubEarthCharacter W) : ASubEarthCharacter W :=
  hands.foldl (fun st hand => ASubEarthCharacter.GrabDropObject E e hand st) s

/-- The number of calls in `hands` that address the left hand: those whose hand
is `LEFT_HAND` or `BOTH_HANDS`. -/
def leftCalls (e : Hand_e) (hands : List Int) : Nat :=
  hands.countP (fun hand => decide (hand = e.LEFT_HAND ∨ hand = e.BOTH_HANDS))

/-- The number of calls in `hands` that address the right hand: those whose
hand is `RIGHT_HAND` or `BOTH_HANDS`. -/
def rightCalls (e : Hand_e) (hands : List Int) : Nat :=
  hands.countP (fun hand => decide (hand = e.RIGHT_HAND ∨ hand = e.BOTH_HANDS))

/-- Both rotation rates of `t` are those of `s`. -/
def RatesKept {W : Type} (s t : ASubEarthCharacter W) : Prop :=
  t.BaseTurnRate = s.BaseTurnRate ∧ t.BaseLookUpRate = s.BaseLookUpRate

/-- Both hand flags of `t` are those of `s`. -/
def HandsKept {W : Type} (s t : ASubEarthCharacter W) : Prop :=
  t.isLeftHandEmpty = s.isLeftHandEmpty ∧ t.isRightHandEmpty = s.isRightHandEmpty

/-! ## Unfolding `GrabDropObject` case by case -/

section Cases

variable {W V : Type} (E : Host W V) (e : Hand_e)

theorem grabDrop_left (s : ASubEarthCharacter W) :
    ASubEarthCharacter.GrabDropObject E e e.LEFT_HAND s =
      if s.isLeftHandEmpty then
        { s with isLeftHandEmpty := false
                 engine := E.UE_LOG .Log "Left hand grab object" s.engine }
      else
        { s with isLeftHandEmpty := true
                 engine := E.UE_LOG .Log "Left hand drop object" s.engine } := by
  rw [ASubEarthCharacter.GrabDropObject]
  simp

theorem grabDrop_right (h : e.LEFT_HAND ≠ e.RIGHT_HAND) (s : ASubEarthCharacter W) :
    ASubEarthCharacter.GrabDropObject E e e.RIGHT_HAND s =
      if s.isRightHandEmpty then
        { s with isRightHandEmpty := false
                 engine := E.UE_LOG .Log "Right hand grab object" s.engine }
      else
        { s with isRightHandEmpty := true
                 engine := E.UE_LOG .Log "Right hand drop object" s.engine } := by
  rw [ASubEarthCharacter.GrabDropObject]
  simp [Ne.symm h]

theorem grabDrop_both (hd : e.Distinct) (s : ASubEarthCharacter W) :
    ASubEarthCharacter.GrabDropObject E e e.BOTH_HANDS s =
      ASubEarthCharacter.GrabDropObject E e e.RIGHT_HAND
        (ASubEarthCharacter.GrabDropObject E e e.LEFT_HAND s) := by
  obtain ⟨_, h13, h23⟩ := hd
  rw [ASubEarthCharacter.GrabDropObject]
  simp [Ne.symm h13, Ne.symm h23]

theorem grabDrop_default (hand : Int) (h1 : hand ≠ e.LEFT_HAND) (h2 : hand ≠ e.RIGHT_HAND)
    (h3 : hand ≠ e.BOTH_HANDS) (s : ASubEarthCharacter W) :
    ASubEarthCharacter.GrabDropObject E e hand s =
      { s with engine :=
          E.UE_LOG .Warning ("Unrecognized hand enum " ++ toString hand) s.engine } := by
  rw [ASubEarthCharacter.GrabDropObject]
  simp [h1, h2, h3]

end Cases

/-! ## Effect of one `GrabDropObject` call on the member variables -/

section Effects

variable {W V : Type} (E : Host W V) (e : Hand_e)

theorem grabDrop_left_isLeft (s : ASubEarthCharacter W) :
    (ASubEarthCharacter.GrabDropObject E e e.LEFT_HAND s).isLeftHandEmpty
      = !s.isLeftHandEmpty := by
  rw [grabDrop_left]
  cases hl : s.isLeftHandEmpty <;> simp

theorem grabDrop_left_isRight (s : ASubEarthCharacter W) :
    (ASubEarthCharacter.GrabDropObject E e e.LEFT_HAND s).isRightHandEmpty
      = s.isRightHandEmpty := by
  rw [grabDrop_left]
  split <;> rfl

theorem grabDrop_right_isRight (h : e.LEFT_HAND ≠ e.RIGHT_HAND) (s : ASubEarthCharacter W) :
    (ASubEarthCharacter.GrabDropObject E e e.RIGHT_HAND s).isRightHandEmpty
      = !s.isRightHandEmpty := by
  rw [grabDrop_right E e h]
  cases hr : s.isRightHandEmpty <;> simp

theorem grabDrop_right_isLeft (h : e.LEFT_HAND ≠ e.RIGHT_HAND) (s : ASubEarthCharacter W) :
    (ASubEarthCharacter.GrabDropObject E e e.RIGHT_HAND s).isLeftHandEmpty
      = s.isLeftHandEmpty := by
  rw [grabDrop_right E e h]
  split <;> rfl

theorem grabDrop_isLeft (hd : e.Distinct) (hand : Int) (s : ASubEarthCharacter W) :
    (ASubEarthCharacter.GrabDropObject E e hand s).isLeftHandEmpty
      = if hand = e.LEFT_HAND ∨ hand = e.BOTH_HANDS then !s.isLeftHandEmpty
        else s.isLeftHandEmpty := by
  have h12 := hd.1
  by_cases h1 : hand = e.LEFT_HAND
  · subst h1
    simp [grabDrop_left_isLeft]
  · by_cases h3 : hand = e.BOTH_HANDS
    · subst h3
      simp [grabDrop_both E e hd, grabDrop_right_isLeft E e h12, grabDrop_left_isLeft]
    · by_cases h2 : hand = e.RIGHT_HAND
      · subst h2
        simp [h1, h3, grabDrop_right_isLeft E e h12]
      · simp [h1, h3, grabDrop_default E e hand h1 h2 h3]

theorem grabDrop_isRight (hd : e.Distinct) (hand : Int) (s : ASubEarthCharacter W) :
    (ASubEarthCharacter.GrabDropObject E e hand s).isRightHandEmpty
      = if hand = e.RIGHT_HAND ∨ hand = e.BOTH_HANDS then !s.isRightHandEmpty
        else s.isRightHandEmpty := by
  have h12 := hd.1
  by_cases h2 : hand = e.RIGHT_HAND
  · subst h2
    simp [grabDrop_right_isRight E e h12]
  · by_cases h3 : hand = e.BOTH_HANDS
    · subst h3
      simp [grabDrop_both E e hd, grabDrop_right_isRight E e h12, grabDrop_left_isRight]
    · by_cases h1 : hand = e.LEFT_HAND
      · subst h1
        simp [h2, h3, grabDrop_left_isRight]
      · simp [h2, h3, grabDrop_default E e hand h1 h2 h3]

theorem grabDrop_left_rates (s : ASubEarthCharacter W) :
    (ASubEarthCharacter.GrabDropObject E e e.LEFT_HAND s).BaseTurnRate = s.BaseTurnRate ∧
    (ASubEarthCharacter.GrabDropObject E e e.LEFT_HAND s).BaseLookUpRate
      = s.BaseLookUpRate := by
  rw [grabDrop_left]
  split <;> exact ⟨rfl, rfl⟩

theorem grabDrop_right_rates (s : ASubEarthCharacter W) :
    (ASubEarthCharacter.GrabDropObject E e e.RIGHT_HAND s).BaseTurnRate = s.BaseTurnRate ∧
    (ASubEarthCharacter.GrabDropObject E e e.RIGHT_HAND s).BaseLookUpRate
      = s.BaseLookUpRate := by
  by_cases h : e.LEFT_HAND = e.RIGHT_HAND
  · rw [← h]
    exact grabDrop_left_rates E e s
  · rw [grabDrop_right E e h]
    split <;> exact ⟨rfl, rfl⟩

/-- No call of `GrabDropObject` writes a rotation rate, whatever the hand value
and whatever the enumerator values. -/
theorem grabDrop_rates (hand : Int) (s : ASubEarthCharacter W) :
    (ASubEarthCharacter.GrabDropObject E e hand s).BaseTurnRate = s.BaseTurnRate ∧
    (ASubEarthCharacter.GrabDropObject E e hand s).BaseLookUpRate = s.BaseLookUpRate := by
  by_cases h1 : hand = e.LEFT_HAND
  · subst h1
    exact grabDrop_left_rates E e s
  · by_cases h2 : hand = e.RIGHT_HAND
    · subst h2
      exact grabDrop_right_rates E e s
    · by_cases h3 : hand = e.BOTH_HANDS
      · subst h3
        rw [ASubEarthCharacter.GrabDropObject]
        simp only [h1, h2, dite_false, dite_true]
        have hr := grabDrop_right_rates E e
          (ASubEarthCharacter.GrabDropObject E e e.LEFT_HAND s)
        have hl := grabDrop_left_rates E e s
        exact ⟨hr.1.trans hl.1, hr.2.trans hl.2⟩
      · rw [grabDrop_default E e hand h1 h2 h3]
        exact ⟨rfl, rfl⟩

end Effects

/-! ## Unfolding `IsHandEmpty` case by case -/

section Query

variable {W V : Type} (E : Host W V) (e : Hand_e)

theorem isHandEmpty_left (s : ASubEarthCharacter W) :
    ASubEarthCharacter.IsHandEmpty E e e.LEFT_HAND s = (s.isLeftHandEmpty, s) := by
  simp [ASubEarthCharacter.IsHandEmpty]

theorem isHandEmpty_right (h : e.LEFT_HAND ≠ e.RIGHT_HAND) (s : ASubEarthCharacter W) :
    ASubEarthCharacter.IsHandEmpty E e e.RIGHT_HAND s = (s.isRightHandEmpty, s) := by
  simp [ASubEarthCharacter.IsHandEmpty, Ne.symm h]

theorem isHandEmpty_both (hd : e.Distinct) (s : ASubEarthCharacter W) :
    ASubEarthCharacter.IsHandEmpty E e e.BOTH_HANDS s
      = (s.isLeftHandEmpty && s.isRightHandEmpty, s) := by
  obtain ⟨_, h13, h23⟩ := hd
  cases hl : s.isLeftHandEmpty <;> cases hr : s.isRightHandEmpty <;>
    simp [ASubEarthCharacter.IsHandEmpty, Ne.symm h13, Ne.symm h23, hl, hr]

theorem isHandEmpty_default (hand : Int) (h1 : hand ≠ e.LEFT_HAND) (h2 : hand ≠ e.RIGHT_HAND)
    (h3 : hand ≠ e.BOTH_HANDS) (s : ASubEarthCharacter W) :
    ASubEarthCharacter.IsHandEmpty E e hand s =
      (false,
        { s with engine :=
            E.UE_LOG .Warning ("Unrecognized hand enum " ++ toString hand) s.engine }) := by
  simp [ASubEarthCharacter.IsHandEmpty, h1, h2, h3]

/-- The query writes no hand flag and no rotation rate, whatever the hand value
and whatever the enumerator values. -/
theorem isHandEmpty_frame (hand : Int) (s : ASubEarthCharacter W) :
    (ASubEarthCharacter.IsHandEmpty E e hand s).2.isLeftHandEmpty = s.isLeftHandEmpty ∧
    (ASubEarthCharacter.IsHandEmpty E e hand s).2.isRightHandEmpty = s.isRightHandEmpty ∧
    (ASubEarthCharacter.IsHandEmpty E e hand s).2.BaseTurnRate = s.BaseTurnRate ∧
    (ASubEarthCharacter.IsHandEmpty E e hand s).2.BaseLookUpRate = s.BaseLookUpRate := by
  unfold ASubEarthCharacter.IsHandEmpty
  simp only []
  split_ifs <;> exact ⟨rfl, rfl, rfl, rfl⟩

end Query

/-! ## Sequences of `GrabDropObject` calls -/

section Sequences

variable {W V : Type} (E : Host W V) (e : Hand_e)

theorem applyGrabDrops_isLeft (hd : e.Distinct) (hands : List Int) (s : ASubEarthCharacter W) :
    (applyGrabDrops E e hands s).isLeftHandEmpty
      = if Even (leftCalls e hands) then s.isLeftHandEmpty else !s.isLeftHandEmpty := by
  induction hands generalizing s with
  | nil => simp [applyGrabDrops, leftCalls]
  | cons hand rest ih =>
    have hstep : applyGrabDrops E e (hand :: rest) s
        = applyGrabDrops E e rest (ASubEarthCharacter.GrabDropObject E e hand s) := rfl
    rw [hstep, ih, grabDrop_isLeft E e hd]
    by_cases hc : hand = e.LEFT_HAND ∨ hand = e.BOTH_HANDS
    · have hn : leftCalls e (hand :: rest) = leftCalls e rest + 1 := by
        simp [leftCalls, List.countP_cons, hc]
      rw [hn, if_pos hc]
      by_cases hev : Even (leftCalls e rest)
      · simp [hev, Nat.even_add_one]
      · simp [hev, Nat.even_add_one]
    · have hn : leftCalls e (hand :: rest) = leftCalls e rest := by
        simp [leftCalls, List.countP_cons, hc]
      rw [hn, if_neg hc]

theorem applyGrabDrops_isRight (hd : e.Distinct) (hands : List Int) (s : ASubEarthCharacter W) :
    (applyGrabDrops E e hands s).isRightHandEmpty
      = if Even (rightCalls e hands) then s.isRightHandEmpty else !s.isRightHandEmpty := by
  induction hands generalizing s with
  | nil => simp [applyGrabDrops, rightCalls]
  | cons hand rest ih =>
    have hstep : applyGrabDrops E e (hand :: rest) s
        = applyGrabDrops E e rest (ASubEarthCharacter.GrabDropObject E e hand s) := rfl
    rw [hstep, ih, grabDrop_isRight E e hd]
    by_cases hc : hand = e.RIGHT_HAND ∨ hand = e.BOTH_HANDS
    · have hn : rightCalls e (hand :: rest) = rightCalls e rest + 1 := by
        simp [rightCalls, List.countP_cons, hc]
      rw [hn, if_pos hc]
      by_cases hev : Even (rightCalls e rest)
      · simp [hev, Nat.even_add_one]
      · simp [hev, Nat.even_add_one]
    · have hn : rightCalls e (hand :: rest) = rightCalls e rest := by
        simp [rightCalls, List.countP_cons, hc]
      rw [hn, if_neg hc]

end Sequences

/-! ## The claims -/

section Claims

variable {W V : Type} (E : Host W V) (e : Hand_e)

/-- Claim C1: `GrabDropObject(LEFT_HAND)` sets `isLeftHandEmpty` to the negation
of its previous value and `GrabDropObject(RIGHT_HAND)` sets `isRightHandEmpty`
to the negation of its previous value, in every state; the input callbacks
`LeftHandGrabDropObj` and `RightHandGrabDropObj` do the same for their hand. -/
theorem grabDrop_toggles_addressed_hand (hd : e.Distinct) (s : ASubEarthCharacter W) :
    (ASubEarthCharacter.GrabDropObject E e e.LEFT_HAND s).isLeftHandEmpty
      = !s.isLeftHandEmpty ∧
    (ASubEarthCharacter.GrabDropObject E e e.RIGHT_HAND s).isRightHandEmpty
      = !s.isRightHandEmpty ∧
    (ASubEarthCharacter.LeftHandGrabDropObj E e s).isLeftHandEmpty = !s.isLeftHandEmpty ∧
    (ASubEarthCharacter.RightHandGrabDropObj E e s).isRightHandEmpty
      = !s.isRightHandEmpty :=
  ⟨grabDrop_left_isLeft E e s, grabDrop_right_isRight E e hd.1 s,
    grabDrop_left_isLeft E e s, grabDrop_right_isRight E e hd.1 s⟩

/-- Claim C2: `IsHandEmpty(BOTH_HANDS)` returns true exactly when
`isLeftHandEmpty` and `isRightHandEmpty` are both true. -/
theorem isHandEmpty_both_iff (hd : e.Distinct) (s : ASubEarthCharacter W) :
    (ASubEarthCharacter.IsHandEmpty E e e.BOTH_HANDS s).1 = true
      ↔ s.isLeftHandEmpty = true ∧ s.isRightHandEmpty = true := by
  rw [isHandEmpty_both E e hd]
  simp

/-- Claim C3: for a hand value that is none of `LEFT_HAND`, `RIGHT_HAND`,
`BOTH_HANDS`, `GrabDropObject(hand)` leaves the member variables as they were:
both hand flags (and both rotation rates) keep their previous values. -/
theorem grabDrop_unrecognized_keeps_state (hand : Int) (h1 : hand ≠ e.LEFT_HAND)
    (h2 : hand ≠ e.RIGHT_HAND) (h3 : hand ≠ e.BOTH_HANDS) (s : ASubEarthCharacter W) :
    HandsKept s (ASubEarthCharacter.GrabDropObject E e hand s) ∧
    RatesKept s (ASubEarthCharacter.GrabDropObject E e hand s) := by
  rw [grabDrop_default E e hand h1 h2 h3]
  exact ⟨⟨rfl, rfl⟩, ⟨rfl, rfl⟩⟩

/-- Claim C4: for a hand value that is none of `LEFT_HAND`, `RIGHT_HAND`,
`BOTH_HANDS`, `IsHandEmpty(hand)` returns false, whatever the two hand flags
are. -/
theorem isHandEmpty_unrecognized_false (hand : Int) (h1 : hand ≠ e.LEFT_HAND)
    (h2 : hand ≠ e.RIGHT_HAND) (h3 : hand ≠ e.BOTH_HANDS) (s : ASubEarthCharacter W) :
    (ASubEarthCharacter.IsHandEmpty E e hand s).1 = false := by
  rw [isHandEmpty_default E e hand h1 h2 h3]

/-- Claim C5: `GrabDropObject(BOTH_HANDS)` toggles each hand independently:
afterwards each hand flag is the negation of its previous value, and the result
is that of `GrabDropObject(LEFT_HAND)` followed by
`GrabDropObject(RIGHT_HAND)`. -/
theorem grabDrop_both_toggles_each (hd : e.Distinct) (s : ASubEarthCharacter W) :
    (ASubEarthCharacter.GrabDropObject E e e.BOTH_HANDS s).isLeftHandEmpty
      = !s.isLeftHandEmpty ∧
    (ASubEarthCharacter.GrabDropObject E e e.BOTH_HANDS s).isRightHandEmpty
      = !s.isRightHandEmpty ∧
    ASubEarthCharacter.GrabDropObject E e e.BOTH_HANDS s
      = ASubEarthCharacter.GrabDropObject E e e.RIGHT_HAND
          (ASubEarthCharacter.GrabDropObject E e e.LEFT_HAND s) := by
  refine ⟨?_, ?_, grabDrop_both E e hd s⟩
  · rw [grabDrop_isLeft E e hd]
    simp
  · rw [grabDrop_isRight E e hd]
    simp

/-- Claim C6: `IsHandEmpty(LEFT_HAND)` returns the current value of
`isLeftHandEmpty` and `IsHandEmpty(RIGHT_HAND)` returns the current value of
`isRightHandEmpty`; neither result changes when the flag of the other hand is
replaced by any value `b`. -/
theorem isHandEmpty_reads_hand_flag (hd : e.Distinct) (s : ASubEarthCharacter W) :
    (ASubEarthCharacter.IsHandEmpty E e e.LEFT_HAND s).1 = s.isLeftHandEmpty ∧
    (ASubEarthCharacter.IsHandEmpty E e e.RIGHT_HAND s).1 = s.isRightHandEmpty ∧
    (∀ b : Bool,
      (ASubEarthCharacter.IsHandEmpty E e e.LEFT_HAND { s with isRightHandEmpty := b }).1
        = (ASubEarthCharacter.IsHandEmpty E e e.LEFT_HAND s).1) ∧
    (∀ b : Bool,
      (ASubEarthCharacter.IsHandEmpty E e e.RIGHT_HAND { s with isLeftHandEmpty := b }).1
        = (ASubEarthCharacter.IsHandEmpty E e e.RIGHT_HAND s).1) := by
  refine ⟨?_, ?_, ?_, ?_⟩
  · rw [isHandEmpty_left]
  · rw [isHandEmpty_right E e hd.1]
  · intro b
    rw [isHandEmpty_left, isHandEmpty_left]
  · intro b
    rw [isHandEmpty_right E e hd.1, isHandEmpty_right E e hd.1]

/-- Claim C7: the constructor sets `BaseTurnRate` and `BaseLookUpRate` to 45,
and every operation of the class (`IsHandEmpty` and `GrabDropObject` with any
hand value, `LeftHandGrabDropObj`, `RightHandGrabDropObj`, `MoveForward`,
`MoveRight`, `TurnAtRate`, `LookUpAtRate`) leaves both rates equal to their
value before the call. -/
theorem rates_set_at_construction_never_mutated :
    (∀ w : W, (ASubEarthCharacter.ctor E w).BaseTurnRate = 45 ∧
      (ASubEarthCharacter.ctor E w).BaseLookUpRate = 45) ∧
    ∀ s : ASubEarthCharacter W,
      (∀ hand : Int, RatesKept s (ASubEarthCharacter.IsHandEmpty E e hand s).2) ∧
      (∀ hand : Int, RatesKept s (ASubEarthCharacter.GrabDropObject E e hand s)) ∧
      RatesKept s (ASubEarthCharacter.LeftHandGrabDropObj E e s) ∧
      RatesKept s (ASubEarthCharacter.RightHandGrabDropObj E e s) ∧
      (∀ Value : ℚ, RatesKept s (ASubEarthCharacter.MoveForward E Value s)) ∧
      (∀ Value : ℚ, RatesKept s (ASubEarthCharacter.MoveRight E Value s)) ∧
      (∀ Rate : ℚ, RatesKept s (ASubEarthCharacter.TurnAtRate E Rate s)) ∧
      (∀ Rate : ℚ, RatesKept s (ASubEarthCharacter.LookUpAtRate E Rate s)) := by
  refine ⟨fun w => ⟨rfl, rfl⟩, fun s => ⟨?_, ?_, ?_, ?_, ?_, ?_, ?_, ?_⟩⟩
  · intro hand
    exact (isHandEmpty_frame E e hand s).2.2
  · intro hand
    exact grabDrop_rates E e hand s
  · exact grabDrop_rates E e e.LEFT_HAND s
  · exact grabDrop_rates E e e.RIGHT_HAND s
  · intro Value
    unfold ASubEarthCharacter.MoveForward
    split <;> exact ⟨rfl, rfl⟩
  · intro Value
    unfold ASubEarthCharacter.MoveRight
    split <;> exact ⟨rfl, rfl⟩
  · intro Rate
    exact ⟨rfl, rfl⟩
  · intro Rate
    exact ⟨rfl, rfl⟩

/-- Claim C8: a hand flag is written only by a grab/drop toggle addressing that
hand: `IsHandEmpty(hand)` with any hand value leaves both flags unchanged,
`GrabDropObject(LEFT_HAND)` leaves `isRightHandEmpty` unchanged and
`GrabDropObject(RIGHT_HAND)` leaves `isLeftHandEmpty` unchanged. -/
theorem hand_flags_written_only_by_their_toggle (hd : e.Distinct)
    (s : ASubEarthCharacter W) :
    (∀ hand : Int, HandsKept s (ASubEarthCharacter.IsHandEmpty E e hand s).2) ∧
    (ASubEarthCharacter.GrabDropObject E e e.LEFT_HAND s).isRightHandEmpty
      = s.isRightHandEmpty ∧
    (ASubEarthCharacter.GrabDropObject E e e.RIGHT_HAND s).isLeftHandEmpty
      = s.isLeftHandEmpty := by
  refine ⟨fun hand => ?_, grabDrop_left_isRight E e s, grabDrop_right_isLeft E e hd.1 s⟩
  have hf := isHandEmpty_frame E e hand s
  exact ⟨hf.1, hf.2.1⟩

/-- Claim C9: a both-hands toggle is not a toggle of the combined "both hands
empty" answer: there is a state with one hand empty and the other holding (the
one reached from a new character by `GrabDropObject(RIGHT_HAND)`) such that
after `GrabDropObject(BOTH_HANDS)` the two flags still differ, and
`IsHandEmpty(BOTH_HANDS)` returns false before and after the call, so it is
not negated. -/
theorem grabDrop_both_is_not_combined_toggle (hd : e.Distinct) (w : W) :
    ∃ s : ASubEarthCharacter W,
      s = ASubEarthCharacter.GrabDropObject E e e.RIGHT_HAND (ASubEarthCharacter.ctor E w) ∧
      s.isLeftHandEmpty = true ∧ s.isRightHandEmpty = false ∧
      (ASubEarthCharacter.GrabDropObject E e e.BOTH_HANDS s).isLeftHandEmpty = false ∧
      (ASubEarthCharacter.GrabDropObject E e e.BOTH_HANDS s).isRightHandEmpty = true ∧
      (ASubEarthCharacter.IsHandEmpty E e e.BOTH_HANDS s).1 = false ∧
      (ASubEarthCharacter.IsHandEmpty E e e.BOTH_HANDS
        (ASubEarthCharacter.GrabDropObject E e e.BOTH_HANDS s)).1 = false ∧
      (ASubEarthCharacter.IsHandEmpty E e e.BOTH_HANDS
        (ASubEarthCharacter.GrabDropObject E e e.BOTH_HANDS s)).1
        ≠ !(ASubEarthCharacter.IsHandEmpty E e e.BOTH_HANDS s).1 := by
  have hl : (ASubEarthCharacter.GrabDropObject E e e.RIGHT_HAND
      (ASubEarthCharacter.ctor E w)).isLeftHandEmpty = true := by
    rw [grabDrop_right_isLeft E e hd.1]; rfl
  have hr : (ASubEarthCharacter.GrabDropObject E e e.RIGHT_HAND
      (ASubEarthCharacter.ctor E w)).isRightHandEmpty = false := by
    rw [grabDrop_right_isRight E e hd.1]; rfl
  refine ⟨_, rfl, hl, hr, ?_, ?_, ?_, ?_, ?_⟩
  · rw [grabDrop_isLeft E e hd, hl]; simp
  · rw [grabDrop_isRight E e hd, hr]; simp
  · rw [isHandEmpty_both E e hd, hl, hr]; rfl
  · rw [isHandEmpty_both E e hd, grabDrop_isLeft E e hd, grabDrop_isRight E e hd, hl, hr]
    simp
  · rw [isHandEmpty_both E e hd, isHandEmpty_both E e hd, grabDrop_isLeft E e hd,
      grabDrop_isRight E e hd, hl, hr]
    simp

/-- Claim C10: from a newly constructed character, after any finite sequence of
`GrabDropObject` calls with arbitrary hand values, `IsHandEmpty(LEFT_HAND)` is
true exactly when the number of calls with hand `LEFT_HAND` or `BOTH_HANDS` is
even, and `IsHandEmpty(RIGHT_HAND)` is true exactly when the number of calls
with hand `RIGHT_HAND` or `BOTH_HANDS` is even (other hand values do not
count); and the same `GrabDropObject` call applied twice, in any state, brings
the member variables back to what they were. -/
theorem hand_flags_follow_call_parity (hd : e.Distinct) (w : W) (hands : List Int) :
    ((ASubEarthCharacter.IsHandEmpty E e e.LEFT_HAND
        (applyGrabDrops E e hands (ASubEarthCharacter.ctor E w))).1 = true
      ↔ Even (leftCalls e hands)) ∧
    ((ASubEarthCharacter.IsHandEmpty E e e.RIGHT_HAND
        (applyGrabDrops E e hands (ASubEarthCharacter.ctor E w))).1 = true
      ↔ Even (rightCalls e hands)) ∧
    ∀ (hand : Int) (s : ASubEarthCharacter W),
      HandsKept s (ASubEarthCharacter.GrabDropObject E e hand
        (ASubEarthCharacter.GrabDropObject E e hand s)) ∧
      RatesKept s (ASubEarthCharacter.GrabDropObject E e hand
        (ASubEarthCharacter.GrabDropObject E e hand s)) := by
  refine ⟨?_, ?_, fun hand s => ⟨⟨?_, ?_⟩, ?_⟩⟩
  · rw [isHandEmpty_left, applyGrabDrops_isLeft E e hd]
    by_cases hev : Even (leftCalls e hands) <;> simp [hev, ASubEarthCharacter.ctor]
  · rw [isHandEmpty_right E e hd.1, applyGrabDrops_isRight E e hd]
    by_cases hev : Even (rightCalls e hands) <;> simp [hev, ASubEarthCharacter.ctor]
  · rw [grabDrop_isLeft E e hd, grabDrop_isLeft E e hd]
    split <;> simp
  · rw [grabDrop_isRight E e hd, grabDrop_isRight E e hd]
    split <;> simp
  · have h2 := grabDrop_rates E e hand (ASubEarthCharacter.GrabDropObject E e hand s)
    have h1 := grabDrop_rates E e hand s
    exact ⟨h2.1.trans h1.1, h2.2.trans h1.2⟩

end Claims

/-! ## The claims at concrete inputs

The host is `recordingHost`, the enumerators are `0, 1, 2`, and the character is
a new one on an empty engine record, or one that has grabbed with one hand. -/

section Witnesses

theorem grabDrop_toggles_addressed_hand_witness :
    defaultHands.Distinct ∧
    (ASubEarthCharacter.GrabDropObject recordingHost defaultHands 0
      (ASubEarthCharacter.ctor recordingHost [])).isLeftHandEmpty = false ∧
    (ASubEarthCharacter.GrabDropObject recordingHost defaultHands 1
      (ASubEarthCharacter.ctor recordingHost [])).isRightHandEmpty = false ∧
    (ASubEarthCharacter.LeftHandGrabDropObj recordingHost defaultHands
      (ASubEarthCharacter.ctor recordingHost [])).isLeftHandEmpty = false ∧
    (ASubEarthCharacter.RightHandGrabDropObj recordingHost defaultHands
      (ASubEarthCharacter.ctor recordingHost [])).isRightHandEmpty = false :=
  ⟨by decide,
    grabDrop_toggles_addressed_hand recordingHost defaultHands (by decide)
      (ASubEarthCharacter.ctor recordingHost [])⟩

theorem isHandEmpty_both_iff_witness :
    defaultHands.Distinct ∧
    ((ASubEarthCharacter.IsHandEmpty recordingHost defaultHands 2
        (ASubEarthCharacter.ctor recordingHost [])).1 = true
      ↔ true = true ∧ true = true) :=
  ⟨by decide,
    isHandEmpty_both_iff recordingHost defaultHands (by decide)
      (ASubEarthCharacter.ctor recordingHost [])⟩

theorem grabDrop_unrecognized_keeps_state_witness :
    ((7 : Int) ≠ 0 ∧ (7 : Int) ≠ 1 ∧ (7 : Int) ≠ 2) ∧
    HandsKept (ASubEarthCharacter.ctor recordingHost [])
      (ASubEarthCharacter.GrabDropObject recordingHost defaultHands 7
        (ASubEarthCharacter.ctor recordingHost [])) ∧
    RatesKept (ASubEarthCharacter.ctor recordingHost [])
      (ASubEarthCharacter.GrabDropObject recordingHost defaultHands 7
        (ASubEarthCharacter.ctor recordingHost [])) :=
  ⟨by decide,
    grabDrop_unrecognized_keeps_state recordingHost defaultHands 7 (by decide) (by decide)
      (by decide) (ASubEarthCharacter.ctor recordingHost [])⟩

theorem isHandEmpty_unrecognized_false_witness :
    ((-1 : Int) ≠ 0 ∧ (-1 : Int) ≠ 1 ∧ (-1 : Int) ≠ 2) ∧
    (ASubEarthCharacter.IsHandEmpty recordingHost defaultHands (-1)
      (ASubEarthCharacter.ctor recordingHost [])).1 = false :=
  ⟨by decide,
    isHandEmpty_unrecognized_false recordingHost defaultHands (-1) (by decide) (by decide)
      (by decide) (ASubEarthCharacter.ctor recordingHost [])⟩

theorem grabDrop_both_toggles_each_witness :
    defaultHands.Distinct ∧
    (ASubEarthCharacter.GrabDropObject recordingHost defaultHands 2
      (ASubEarthCharacter.ctor recordingHost [])).isLeftHandEmpty = false ∧
    (ASubEarthCharacter.GrabDropObject recordingHost defaultHands 2
      (ASubEarthCharacter.ctor recordingHost [])).isRightHandEmpty = false ∧
    ASubEarthCharacter.GrabDropObject recordingHost defaultHands 2
        (ASubEarthCharacter.ctor recordingHost [])
      = ASubEarthCharacter.GrabDropObject recordingHost defaultHands 1
          (ASubEarthCharacter.GrabDropObject recordingHost defaultHands 0
            (ASubEarthCharacter.ctor recordingHost [])) :=
  ⟨by decide,
    grabDrop_both_toggles_each recordingHost defaultHands (by decide)
      (ASubEarthCharacter.ctor recordingHost [])⟩

theorem isHandEmpty_reads_hand_flag_witness :
    defaultHands.Distinct ∧
    (ASubEarthCharacter.IsHandEmpty recordingHost defaultHands 0
      (ASubEarthCharacter.ctor recordingHost [])).1 = true ∧
    (ASubEarthCharacter.IsHandEmpty recordingHost defaultHands 1
      (ASubEarthCharacter.ctor recordingHost [])).1 = true :=
  ⟨by decide,
    (isHandEmpty_reads_hand_flag recordingHost defaultHands (by decide)
      (ASubEarthCharacter.ctor recordingHost [])).1,
    (isHandEmpty_reads_hand_flag recordingHost defaultHands (by decide)
      (ASubEarthCharacter.ctor recordingHost [])).2.1⟩

theorem hand_flags_written_only_by_their_toggle_witness :
    defaultHands.Distinct ∧
    (∀ hand : Int, HandsKept (ASubEarthCharacter.ctor recordingHost [])
      (ASubEarthCharacter.IsHandEmpty recordingHost defaultHands hand
        (ASubEarthCharacter.ctor recordingHost [])).2) ∧
    (ASubEarthCharacter.GrabDropObject recordingHost defaultHands 0
      (ASubEarthCharacter.ctor recordingHost [])).isRightHandEmpty = true ∧
    (ASubEarthCharacter.GrabDropObject recordingHost defaultHands 1
      (ASubEarthCharacter.ctor recordingHost [])).isLeftHandEmpty = true :=
  ⟨by decide,
    hand_flags_written_only_by_their_toggle recordingHost defaultHands (by decide)
      (ASubEarthCharacter.ctor recordingHost [])⟩

theorem grabDrop_both_is_not_combined_toggle_witness :
    defaultHands.Distinct ∧
    ∃ s : ASubEarthCharacter (List String),
      s = ASubEarthCharacter.GrabDropObject recordingHost defaultHands 1
        (ASubEarthCharacter.ctor recordingHost []) ∧
      s.isLeftHandEmpty = true ∧ s.isRightHandEmpty = false ∧
      (ASubEarthCharacter.GrabDropObject recordingHost defaultHands 2 s).isLeftHandEmpty
        = false ∧
      (ASubEarthCharacter.GrabDropObject recordingHost defaultHands 2 s).isRightHandEmpty
        = true ∧
      (ASubEarthCharacter.IsHandEmpty recordingHost defaultHands 2 s).1 = false ∧
      (ASubEarthCharacter.IsHandEmpty recordingHost defaultHands 2
        (ASubEarthCharacter.GrabDropObject recordingHost defaultHands 2 s)).1 = false ∧
      (ASubEarthCharacter.IsHandEmpty recordingHost defaultHands 2
        (ASubEarthCharacter.GrabDropObject recordingHost defaultHands 2 s)).1
        ≠ !(ASubEarthCharacter.IsHandEmpty recordingHost defaultHands 2 s).1 :=
  ⟨by decide, grabDrop_both_is_not_combined_toggle recordingHost defaultHands (by decide) []⟩

theorem hand_flags_follow_call_parity_witness :
    defaultHands.Distinct ∧
    ((ASubEarthCharacter.IsHandEmpty recordingHost defaultHands 0
        (applyGrabDrops recordingHost defaultHands [0, 2, 7, 1, 2, 0]
          (ASubEarthCharacter.ctor recordingHost []))).1 = true
      ↔ Even (leftCalls defaultHands [0, 2, 7, 1, 2, 0])) ∧
    ((ASubEarthCharacter.IsHandEmpty recordingHost defaultHands 1
        (applyGrabDrops recordingHost defaultHands [0, 2, 7, 1, 2, 0]
          (ASubEarthCharacter.ctor recordingHost []))).1 = true
      ↔ Even (rightCalls defaultHands [0, 2, 7, 1, 2, 0])) :=
  ⟨by decide,
    (hand_flags_follow_call_parity recordingHost defaultHands (by decide) []
      [0, 2, 7, 1, 2, 0]).1,
    (hand_flags_follow_call_parity recordingHost defaultHands (by decide) []
      [0, 2, 7, 1, 2, 0]).2.1⟩

end Witnesses

end SubEarth
